import Mathlib

/-!
Shallow embedding of `src/examples/drag-out.rs` (tao drag-out example):
the drop-source feedback controller (`QueryContinueDrag`, `GiveFeedback`),
the Win32 global-memory helpers (`duplicate_global_data`, `global_from_data`),
the drag-and-drop data object (`lookup_format`, `GetData`, `GetDataHere`,
`QueryGetData`, `GetCanonicalFormatEtc`), the async-capability state machine,
and the descriptor built by `main` on the mouse-press event.

Machine integers are modelled as `Nat`/`Int`.  Win32 global memory is an
explicit heap state: a list of blocks (`none` = freed), with two environment
oracles (`allocOk` — whether the next `GlobalAlloc` succeeds, and `newLockOk`
— whether `GlobalLock` will succeed on a freshly allocated block).  Handles
are positive naturals, `0` is the null handle/pointer; with `GMEM_FIXED`
semantics a successful lock returns the handle itself as the pointer.
Reads and writes carry an extra `Bool` observation recording whether the
access touched memory outside a live block (a null dereference or an
out-of-bounds copy) — undefined behaviour in the Rust source.
-/

/-- HRESULT `S_OK` (0). -/
def S_OK : Int := 0

/-- HRESULT `DRAGDROP_S_DROP` (0x00040100). -/
def DRAGDROP_S_DROP : Int := 262400

/-- HRESULT `DRAGDROP_S_CANCEL` (0x00040101). -/
def DRAGDROP_S_CANCEL : Int := 262401

/-- HRESULT `DRAGDROP_S_USEDEFAULTCURSORS` (0x00040102). -/
def DRAGDROP_S_USEDEFAULTCURSORS : Int := 262402

/-- HRESULT `DV_E_FORMATETC` (0x80040064 as a signed 32-bit value). -/
def DV_E_FORMATETC : Int := -2147221404

/-- The example's own constant `DATA_E_FORMATETC = HRESULT(-2147221404 + 1)`. -/
def DATA_E_FORMATETC : Int := -2147221404 + 1

/-- HRESULT `E_NOTIMPL` (0x80004001 as a signed 32-bit value). -/
def E_NOTIMPL : Int := -2147467263

/-- HRESULT `E_OUTOFMEMORY` (0x8007000E as a signed 32-bit value). -/
def E_OUTOFMEMORY : Int := -2147024882

/-- HRESULT `OLE_E_ADVISENOTSUPPORTED` (0x80040003 as a signed 32-bit value). -/
def OLE_E_ADVISENOTSUPPORTED : Int := -2147221501

/-- Modifier-key flag `MK_LBUTTON` (primary mouse button). -/
def MK_LBUTTON : Nat := 1

/-- Modifier-key flag `MK_RBUTTON` (secondary mouse button). -/
def MK_RBUTTON : Nat := 2

/-- Clipboard format id `CF_TEXT` (`CF_TEXT.0 = 1`). -/
def CF_TEXT : Nat := 1

/-- Aspect constant `DVASPECT_CONTENT` (= 1), the default (content) aspect. -/
def DVASPECT_CONTENT : Nat := 1

/-- Medium kind `TYMED_HGLOBAL` (= 1), the global-memory medium. -/
def TYMED_HGLOBAL : Nat := 1

/-- Drop effect `DROPEFFECT_COPY` (= 1). -/
def DROPEFFECT_COPY : Nat := 1

/-- Drop effect `DROPEFFECT_LINK` (= 4). -/
def DROPEFFECT_LINK : Nat := 4

/-- One live global-memory block: its byte content, and whether a
`GlobalLock` on it succeeds (returns a non-null pointer). -/
structure GBlock where
  data : List Nat
  lockOk : Bool
deriving DecidableEq

/-- The Win32 global-memory heap.  `blocks[i] = none` means handle `i+1`
was freed; `allocOk` is the environment's choice of whether the next
`GlobalAlloc` succeeds, `newLockOk` whether a freshly allocated block will
lock successfully. -/
structure GHeap where
  blocks : List (Option GBlock)
  allocOk : Bool
  newLockOk : Bool
deriving DecidableEq

/-- `GlobalSize(h)`: byte size of a live block, `0` for null/freed/unknown
handles. -/
def globalSize (st : GHeap) (h : Nat) : Nat :=
  match h with
  | 0 => 0
  | Nat.succ i =>
    match st.blocks[i]? with
    | some (some b) => b.data.length
    | _ => 0

/-- `GlobalLock(h)`: `some p` is a non-null pointer (with `GMEM_FIXED` the
pointer is the handle itself), `none` is the null pointer. -/
def globalLock (st : GHeap) (h : Nat) : Option Nat :=
  match h with
  | 0 => none
  | Nat.succ i =>
    match st.blocks[i]? with
    | some (some b) => if b.lockOk then some (Nat.succ i) else none
    | _ => none

/-- `GlobalAlloc(len)`: on success appends a zero-filled block and returns
its (fresh) handle; on failure returns `none` and leaves the heap alone. -/
def globalAlloc (st : GHeap) (len : Nat) : GHeap × Option Nat :=
  if st.allocOk then
    ({ st with blocks := st.blocks ++ [some ⟨List.replicate len 0, st.newLockOk⟩] },
     some (st.blocks.length + 1))
  else (st, none)

/-- `GlobalFree(h)`: marks the block freed. -/
def globalFree (st : GHeap) (h : Nat) : GHeap :=
  match h with
  | 0 => st
  | Nat.succ i => { st with blocks := st.blocks.set i none }

/-- Read `len` bytes through pointer `p` (`none` = null).  The `Bool`
records whether the read touched memory outside a live block (undefined
behaviour in the source); the model then yields zero bytes for the
untouchable part. -/
def readBytes (st : GHeap) (p : Option Nat) (len : Nat) : List Nat × Bool :=
  match p with
  | none => (List.replicate len 0, decide (0 < len))
  | some h =>
    match h with
    | 0 => (List.replicate len 0, decide (0 < len))
    | Nat.succ i =>
      match st.blocks[i]? with
      | some (some b) =>
        (b.data.take len ++ List.replicate (len - b.data.length) 0,
         decide (b.data.length < len))
      | _ => (List.replicate len 0, decide (0 < len))

/-- Write `bytes` into block `h` starting at offset `0`.  The `Bool`
records whether the write ran past the end of the block (or through an
invalid handle) — undefined behaviour in the source; the model truncates
the write to the block. -/
def writeBytes (st : GHeap) (h : Nat) (bytes : List Nat) : GHeap × Bool :=
  match h with
  | 0 => (st, decide (0 < bytes.length))
  | Nat.succ i =>
    match st.blocks[i]? with
    | some (some b) =>
      ({ st with blocks :=
          st.blocks.set i (some ⟨bytes.take b.data.length ++
            b.data.drop bytes.length, b.lockOk⟩) },
       decide (b.data.length < bytes.length))
    | _ => (st, decide (0 < bytes.length))

/-- Content of the block behind handle `h`, `none` if null/freed/unknown. -/
def blockData (st : GHeap) (h : Nat) : Option (List Nat) :=
  match h with
  | 0 => none
  | Nat.succ i =>
    match st.blocks[i]? with
    | some (some b) => some b.data
    | _ => none

/-- `fn duplicate_global_data(global: HGLOBAL)`: reads the source size,
locks the source, allocates a same-size block (`?` propagates allocation
failure), copies `len` bytes from the locked pointer, unlocks, returns the
new handle.  There is no null check on the locked pointer.  Result:
(new heap, outcome, whether the copy dereferenced a null/invalid source). -/
def duplicate_global_data (st : GHeap) (global : Nat) :
    GHeap × Except Int Nat × Bool :=
  let len := globalSize st global
  let src := globalLock st global
  match globalAlloc st len with
  | (st1, none) => (st1, Except.error E_OUTOFMEMORY, false)
  | (st1, some dest) =>
    let r := readBytes st1 src len
    let w := writeBytes st1 dest r.1
    (w.1, Except.ok dest, r.2)

/-- Little-endian byte encoding of a `&[u16]` slice, as laid down by
`copy_nonoverlapping(data.as_ptr(), global_data as *mut u16, data.len())`. -/
def encodeU16LE : List Nat → List Nat
  | [] => []
  | w :: ws => (w % 256) :: (w / 256 % 256) :: encodeU16LE ws

/-- `fn global_from_data(data: &[u16])`: allocates `data.len()` BYTES
(not `2 * data.len()`), locks; on a null lock frees the block and reports
`E_OUTOFMEMORY`; otherwise copies `data.len()` u16 values (i.e.
`2 * data.len()` bytes) into the block, unlocks, returns the handle.
Result: (new heap, outcome, whether the copy wrote past the block). -/
def global_from_data (st : GHeap) (data : List Nat) :
    GHeap × Except Int Nat × Bool :=
  match globalAlloc st data.length with
  | (st1, none) => (st1, Except.error E_OUTOFMEMORY, false)
  | (st1, some global) =>
    match globalLock st1 global with
    | none => (globalFree st1 global, Except.error E_OUTOFMEMORY, false)
    | some _ =>
      let w := writeBytes st1 global (encodeU16LE data)
      (w.1, Except.ok global, w.2)

/-- `FORMATETC`: format descriptor.  `ptd` is a raw pointer modelled as a
`Nat` address (`0` = null), `lindex` is the signed `i32` index. -/
structure FORMATETC where
  cfFormat : Nat
  dwAspect : Nat
  ptd : Nat
  lindex : Int
  tymed : Nat
deriving DecidableEq

/-- `STGMEDIUM`: storage medium.  Only the fields the example touches are
modelled: the medium tag, the `u.hGlobal` handle (`0` = null, as in the
zeroed `STGMEDIUM::default()`), and the release-on-behalf object
(`pUnkForRelease`, `none` = no object). -/
structure STGMEDIUM where
  tymed : Nat
  hGlobal : Nat
  pUnkForRelease : Option Unit
deriving DecidableEq

/-- The zeroed `STGMEDIUM::default()`. -/
def STGMEDIUM.default : STGMEDIUM := ⟨0, 0, none⟩

/-- `struct DragDropObject`: the format table (`fmtetc` index-aligned with
`stgmeds`) plus the two `RefCell<bool>` async-capability fields, modelled
as plain fields with explicit state passing. -/
structure DragDropObject where
  fmtetc : List FORMATETC
  stgmeds : List STGMEDIUM
  fdoopasync : Bool
  inoperation : Bool
deriving DecidableEq

/-- `Iterator::position`: index of the first element satisfying `p`. -/
def position (p : α → Bool) : List α → Option Nat
  | [] => none
  | a :: l => if p a then some 0 else (position p l).map (· + 1)

/-- The closure inside `lookup_format`: equal `cfFormat`, non-empty bitwise
intersection of `tymed`, equal `dwAspect`, equal `lindex` (in the source's
order of tests). -/
def matchB (e format : FORMATETC) : Bool :=
  e.cfFormat == format.cfFormat
    && (e.tymed &&& format.tymed) != 0
    && e.dwAspect == format.dwAspect
    && e.lindex == format.lindex

/-- `DragDropObject::lookup_format`: position of the first table entry
matching the queried descriptor. -/
def lookup_format (obj : DragDropObject) (format : FORMATETC) : Option Nat :=
  position (fun e => matchB e format) obj.fmtetc

/-- The match rule as the specification states it, as a proposition over an
entry `e` and a queried descriptor `d`: equal format-id, equal aspect,
equal index, and the entry's medium-kind bit is contained in (i.e. meets)
the descriptor's allowed medium-kind set. -/
def matchRule (e d : FORMATETC) : Prop :=
  e.cfFormat = d.cfFormat ∧ e.dwAspect = d.dwAspect ∧ e.lindex = d.lindex ∧
    e.tymed &&& d.tymed ≠ 0

instance (e d : FORMATETC) : Decidable (matchRule e d) := by
  unfold matchRule; infer_instance

/-- `IDataObject::GetData`: on a miss reports `DV_E_FORMATETC`; on a hit
builds a default `STGMEDIUM`, tags it with the entry's `tymed`, clears
`pUnkForRelease`, and only when the entry's `tymed` equals `TYMED_HGLOBAL`
duplicates the stored global handle into it (`?` propagates the
duplication failure). -/
def GetData (st : GHeap) (obj : DragDropObject) (pformatetcin : FORMATETC) :
    GHeap × Except Int STGMEDIUM :=
  match lookup_format obj pformatetcin with
  | none => (st, Except.error DV_E_FORMATETC)
  | some idx =>
    let entry := (obj.fmtetc[idx]?).getD ⟨0, 0, 0, 0, 0⟩
    let stgmed : STGMEDIUM :=
      { STGMEDIUM.default with tymed := entry.tymed, pUnkForRelease := none }
    if entry.tymed = TYMED_HGLOBAL then
      match duplicate_global_data st ((obj.stgmeds[idx]?).getD STGMEDIUM.default).hGlobal with
      | (st1, Except.error e, _) => (st1, Except.error e)
      | (st1, Except.ok h, _) => (st1, Except.ok { stgmed with hGlobal := h })
    else (st, Except.ok stgmed)

/-- `IDataObject::GetDataHere`: unconditionally `Err(DATA_E_FORMATETC)`. -/
def GetDataHere (pformatetc : FORMATETC) (pmedium : STGMEDIUM) : Except Int Unit :=
  Except.error DATA_E_FORMATETC

/-- `IDataObject::QueryGetData`: `S_OK` when `lookup_format` hits,
`DV_E_FORMATETC` otherwise. -/
def QueryGetData (obj : DragDropObject) (pformatetc : FORMATETC) : Int :=
  match lookup_format obj pformatetc with
  | some _ => S_OK
  | none => DV_E_FORMATETC

/-- `IDataObject::GetCanonicalFormatEtc`: nulls the output descriptor's
`ptd` (target-device) field, then reports `E_NOTIMPL`.  Returns the
updated output descriptor and the HRESULT. -/
def GetCanonicalFormatEtc (pformatectin pformatetcout : FORMATETC) :
    FORMATETC × Int :=
  ({ pformatetcout with ptd := 0 }, E_NOTIMPL)

/-- `IDataObjectAsyncCapability::SetAsyncMode`. -/
def SetAsyncMode (fdoopasync : Bool) (obj : DragDropObject) : DragDropObject :=
  { obj with fdoopasync := fdoopasync }

/-- `IDataObjectAsyncCapability::GetAsyncMode`. -/
def GetAsyncMode (obj : DragDropObject) : Bool :=
  obj.fdoopasync

/-- `IDataObjectAsyncCapability::StartOperation`. -/
def StartOperation (obj : DragDropObject) : DragDropObject :=
  { obj with inoperation := true }

/-- `IDataObjectAsyncCapability::InOperation`. -/
def InOperation (obj : DragDropObject) : Bool :=
  obj.inoperation

/-- `IDataObjectAsyncCapability::EndOperation` (the HRESULT, bind context
and effects arguments are ignored by the source). -/
def EndOperation (hresult : Int) (dweffects : Nat) (obj : DragDropObject) :
    DragDropObject :=
  { obj with inoperation := false }

/-- `fn create_data_object`. -/
def create_data_object (fmtetc : List FORMATETC) (stgmeds : List STGMEDIUM) :
    DragDropObject :=
  { fmtetc := fmtetc, stgmeds := stgmeds, fdoopasync := false, inoperation := false }

/-- `IDropSource::QueryContinueDrag`: escape cancels; otherwise no mouse
button held drops; otherwise continue (`S_OK`). -/
def QueryContinueDrag (fescapepressed : Bool) (grfkeystate : Nat) : Int :=
  if fescapepressed then DRAGDROP_S_CANCEL
  else if grfkeystate &&& (MK_LBUTTON ||| MK_RBUTTON) = 0 then DRAGDROP_S_DROP
  else S_OK

/-- `IDropSource::GiveFeedback`: always default cursors. -/
def GiveFeedback (dweffect : Nat) : Int :=
  DRAGDROP_S_USEDEFAULTCURSORS

/-- Non-null model address of the static `DVASPECT_CONTENT` constant that
the source takes a pointer to (`&DVASPECT_CONTENT as *const _ as *mut _`). -/
def ADDR_DVASPECT_CONTENT : Nat := 1

/-- The `FORMATETC` literal built by `main` on the left-mouse-press event,
field for field: `cfFormat: CF_TEXT.0, dwAspect: 0,
ptd: &DVASPECT_CONTENT as *const _ as *mut _, lindex: -1,
tymed: TYMED_HGLOBAL.0`. -/
def mainFormatEtc : FORMATETC :=
  { cfFormat := CF_TEXT, dwAspect := 0, ptd := ADDR_DVASPECT_CONTENT,
    lindex := -1, tymed := TYMED_HGLOBAL }

/-- The format table `vec![fmtetc]` built by `main`. -/
def mainFormatTable : List FORMATETC := [mainFormatEtc]

/-- The allowed-effects argument `DROPEFFECT_COPY | DROPEFFECT_LINK`
passed by `main` to `DoDragDrop`. -/
def mainAllowedEffects : Nat := DROPEFFECT_COPY ||| DROPEFFECT_LINK

/-! ### Concrete fixtures used by witnesses and counterexamples -/

/-- A table entry that does not match `c1desc` (different format-id). -/
def c1entryMiss : FORMATETC := ⟨9, 1, 0, -1, 1⟩

/-- A table entry that matches `c1desc`. -/
def c1entryHit : FORMATETC := ⟨2, 1, 0, -1, 1⟩

/-- A two-entry data object: the first entry misses, the second hits. -/
def c1obj : DragDropObject := create_data_object [c1entryMiss, c1entryHit] []

/-- A queried descriptor allowing medium kinds `{1, 2}` (tymed mask 3). -/
def c1desc : FORMATETC := ⟨2, 1, 0, -1, 3⟩

/-- A global block holding the bytes `[72, 0]`, lockable. -/
def c2block : GBlock := ⟨[72, 0], true⟩

/-- A heap with the single block `c2block` behind handle 1. -/
def c2heap : GHeap := ⟨[some c2block], true, true⟩

/-- A global-memory table entry for format 1. -/
def c2entry : FORMATETC := ⟨1, 1, 0, -1, 1⟩

/-- The stored medium: global-memory, handle 1. -/
def c2medium : STGMEDIUM := ⟨1, 1, none⟩

/-- A one-entry global-memory data object over `c2heap`. -/
def c2obj : DragDropObject := create_data_object [c2entry] [c2medium]

/-- A descriptor matching `c2entry`. -/
def c2desc : FORMATETC := ⟨1, 1, 0, -1, 1⟩

/-- A descriptor matching no entry of `c2obj` (different format-id). -/
def c2missDesc : FORMATETC := ⟨7, 1, 0, -1, 1⟩

/-- A heap whose single 1-byte block refuses to lock: `GlobalLock`
returns null while `GlobalSize` reports 1. -/
def c3heap : GHeap := ⟨[some ⟨[1], false⟩], true, true⟩

/-- A heap on which the next allocation fails. -/
def c3failHeap : GHeap := ⟨[], false, true⟩

/-- A heap with one lockable block holding `[5]`. -/
def c3lockHeap : GHeap := ⟨[some ⟨[5], true⟩], true, true⟩

/-- An empty heap with allocation and locking succeeding. -/
def c4heap : GHeap := ⟨[], true, true⟩

/-- An empty heap on which a freshly allocated block will not lock. -/
def c4lockFailHeap : GHeap := ⟨[], true, false⟩

/-- A table entry with a non-global-memory medium kind (tymed 2). -/
def c10entry : FORMATETC := ⟨3, 1, 0, -1, 2⟩

/-- A one-entry data object whose entry is not global-memory. -/
def c10obj : DragDropObject := create_data_object [c10entry] [⟨2, 0, none⟩]

/-- A descriptor matching `c10entry`. -/
def c10desc : FORMATETC := ⟨3, 1, 0, -1, 2⟩

/-- An empty heap for the `c10` retrieval. -/
def c10heap : GHeap := ⟨[], true, true⟩

/-! ### Helper lemmas -/

theorem position_eq_none_iff (p : α → Bool) (l : List α) :
    position p l = none ↔ ∀ e ∈ l, p e = false := by
  induction l with
  | nil => simp [position]
  | cons a t ih =>
    by_cases hpa : p a = true
    · simp [position, hpa]
    · simp only [Bool.not_eq_true] at hpa
      simp [position, hpa, ih]

theorem position_eq_some_spec (p : α → Bool) :
    ∀ (l : List α) (i : Nat), position p l = some i →
      (∃ e, l[i]? = some e ∧ p e = true) ∧
        ∀ j e, j < i → l[j]? = some e → p e = false := by
  intro l
  induction l with
  | nil => intro i h; simp [position] at h
  | cons a t ih =>
    intro i h
    by_cases hpa : p a = true
    · simp only [position, hpa, if_true, Option.some.injEq] at h
      subst h
      exact ⟨⟨a, by simp, hpa⟩, fun j e hj => absurd hj (Nat.not_lt_zero j)⟩
    · simp only [Bool.not_eq_true] at hpa
      simp only [position, hpa, Bool.false_eq_true, if_false,
        Option.map_eq_some'] at h
      obtain ⟨k, hk, rfl⟩ := h
      obtain ⟨⟨e, he, hpe⟩, hbefore⟩ := ih k hk
      refine ⟨⟨e, by simpa using he, hpe⟩, ?_⟩
      intro j f hj hf
      match j with
      | 0 =>
        simp only [List.getElem?_cons_zero, Option.some.injEq] at hf
        exact hf ▸ hpa
      | Nat.succ j' =>
        simp only [List.getElem?_cons_succ] at hf
        exact hbefore j' f (Nat.lt_of_succ_lt_succ hj) hf

theorem matchB_iff (e d : FORMATETC) : matchB e d = true ↔ matchRule e d := by
  simp only [matchB, matchRule, Bool.and_eq_true, beq_iff_eq, bne_iff_ne,
    ne_eq]
  tauto

theorem lookup_format_isSome_iff (obj : DragDropObject) (d : FORMATETC) :
    (lookup_format obj d).isSome = true ↔ ∃ e ∈ obj.fmtetc, matchRule e d := by
  constructor
  · intro h
    match hl : lookup_format obj d with
    | none => rw [hl] at h; simp at h
    | some i =>
      obtain ⟨⟨e, he, hpe⟩, _⟩ := position_eq_some_spec _ _ _ hl
      exact ⟨e, List.getElem?_mem he, (matchB_iff e d).mp hpe⟩
  · intro ⟨e, he, hm⟩
    match hl : lookup_format obj d with
    | some i => simp
    | none =>
      have hfalse := (position_eq_none_iff _ _).mp hl e he
      have htrue := (matchB_iff e d).mpr hm
      rw [htrue] at hfalse
      exact absurd hfalse (by simp)

theorem set_append_last (l : List α) (a v : α) :
    (l ++ [a]).set l.length v = l ++ [v] := by
  induction l with
  | nil => rfl
  | cons x xs ih => simp [ih]

/-- On a live, lockable source block and a successful allocation,
`duplicate_global_data` appends a fresh block holding a copy of the source
bytes, returns the fresh handle, and performs no invalid access. -/
theorem duplicate_ok_spec (st : GHeap) (i : Nat) (b : GBlock)
    (hb : st.blocks[i]? = some (some b)) (hl : b.lockOk = true)
    (ha : st.allocOk = true) :
    duplicate_global_data st (i + 1) =
      ({ st with blocks := st.blocks ++ [some ⟨b.data, st.newLockOk⟩] },
       Except.ok (st.blocks.length + 1), false) := by
  have hi : i < st.blocks.length := by
    rcases List.getElem?_eq_some_iff.mp hb with ⟨h, _⟩
    exact h
  have hsize : globalSize st (i + 1) = b.data.length := by
    simp [globalSize, hb]
  have hlock : globalLock st (i + 1) = some (i + 1) := by
    simp [globalLock, hb, hl]
  have hread :
      readBytes { st with blocks := st.blocks ++
          [some ⟨List.replicate b.data.length 0, st.newLockOk⟩] }
        (some (i + 1)) b.data.length = (b.data, false) := by
    simp [readBytes, List.getElem?_append_left hi, hb]
  have hwrite :
      writeBytes { st with blocks := st.blocks ++
          [some ⟨List.replicate b.data.length 0, st.newLockOk⟩] }
        (st.blocks.length + 1) b.data =
      ({ st with blocks := st.blocks ++ [some ⟨b.data, st.newLockOk⟩] },
       false) := by
    simp only [writeBytes, List.getElem?_concat_length]
    rw [List.take_of_length_le (by simp), List.drop_eq_nil_of_le (by simp),
      List.append_nil, set_append_last]
    simp
  rw [ha] at hread hwrite
  simp only [duplicate_global_data, hsize, hlock, globalAlloc, ha, if_true,
    hread, hwrite]

/-- A zero-length read never touches memory. -/
theorem readBytes_zero_flag (st : GHeap) (p : Option Nat) :
    (readBytes st p 0).2 = false := by
  rcases p with _ | h
  · simp [readBytes]
  · match h with
    | 0 => simp [readBytes]
    | Nat.succ i =>
      rcases hb : st.blocks[i]? with _ | ob
      · simp [readBytes, hb]
      · rcases ob with _ | b
        · simp [readBytes, hb]
        · simp [readBytes, hb]

/-- `duplicate_global_data` fails only with `E_OUTOFMEMORY` (the propagated
`GlobalAlloc` failure). -/
theorem duplicate_error_spec (st : GHeap) (h : Nat) (e : Int)
    (he : (duplicate_global_data st h).2.1 = Except.error e) :
    e = E_OUTOFMEMORY := by
  by_cases ha : st.allocOk = true
  · simp only [duplicate_global_data, globalAlloc, ha, if_true] at he
    cases he
  · simp only [Bool.not_eq_true] at ha
    simp only [duplicate_global_data, globalAlloc, ha, Bool.false_eq_true,
      if_false, Except.error.injEq] at he
    exact he.symm

/-! ### Claim theorems -/

/-- C1: `QueryGetData` returns `S_OK`, and `GetData`'s lookup finds an entry
(it does not report `DV_E_FORMATETC`), if and only if some entry of the
format table satisfies the match rule (equal format-id, aspect and index,
and the entry's medium-kind meets the descriptor's allowed medium-kind
set); and when `lookup_format` selects an index, that entry matches and no
earlier entry does (first match wins). -/
theorem C1_match_rule (obj : DragDropObject) (d : FORMATETC) :
    (QueryGetData obj d = S_OK ↔ ∃ e ∈ obj.fmtetc, matchRule e d) ∧
    (∀ st : GHeap, (GetData st obj d).2 ≠ Except.error DV_E_FORMATETC ↔
        ∃ e ∈ obj.fmtetc, matchRule e d) ∧
    ∀ idx, lookup_format obj d = some idx →
      (∃ e, obj.fmtetc[idx]? = some e ∧ matchRule e d) ∧
        ∀ j e, j < idx → obj.fmtetc[j]? = some e → ¬ matchRule e d := by
  refine ⟨?_, ?_, ?_⟩
  · rw [← lookup_format_isSome_iff]
    cases hl : lookup_format obj d with
    | none => simp [QueryGetData, hl, S_OK, DV_E_FORMATETC]
    | some i => simp [QueryGetData, hl, S_OK]
  · intro st
    rw [← lookup_format_isSome_iff]
    cases hl : lookup_format obj d with
    | none => simp [GetData, hl]
    | some i =>
      simp only [hl, Option.isSome_some, iff_true, ne_eq]
      simp only [GetData, hl]
      by_cases ht : ((obj.fmtetc[i]?).getD ⟨0, 0, 0, 0, 0⟩).tymed = TYMED_HGLOBAL
      · rw [if_pos ht]
        rcases hdup : duplicate_global_data st
            ((obj.stgmeds[i]?).getD STGMEDIUM.default).hGlobal with ⟨st1, r, flag⟩
        rcases r with e | h
        · have he : e = E_OUTOFMEMORY :=
            duplicate_error_spec st _ e (by rw [hdup])
          simp [hdup, he, E_OUTOFMEMORY, DV_E_FORMATETC]
        · simp [hdup]
      · rw [if_neg ht]
        simp
  · intro idx hl
    have hl' : position (fun e => matchB e d) obj.fmtetc = some idx := hl
    obtain ⟨⟨e, he, hpe⟩, hbef⟩ := position_eq_some_spec _ _ _ hl'
    refine ⟨⟨e, he, (matchB_iff e d).mp hpe⟩, ?_⟩
    intro j f hj hf hm
    have hff := hbef j f hj hf
    rw [(matchB_iff f d).mpr hm] at hff
    simp at hff

/-- C1 witness: on the two-entry fixture the query succeeds, and the first
(non-matching) entry is indeed rejected by the match rule while the second
is selected. -/
theorem C1_match_rule_witness :
    QueryGetData c1obj c1desc = S_OK ∧ ¬ matchRule c1entryMiss c1desc :=
  ⟨(C1_match_rule c1obj c1desc).1.mpr (by decide),
   ((C1_match_rule c1obj c1desc).2.2 1 (by decide)).2 0 c1entryMiss
     (by decide) (by decide)⟩

/-- C2: for a descriptor matching a global-memory entry (heap live and
lockable, allocation succeeding), `GetData` succeeds with a fresh handle
distinct from the stored one, carrying the same byte content, with no
release-on-behalf object, and the stored block is unchanged; for a
descriptor matching no entry it fails with `DV_E_FORMATETC`. -/
theorem C2_get_duplicates (st : GHeap) (obj : DragDropObject) (d : FORMATETC) :
    (∀ idx entry sm i b,
      lookup_format obj d = some idx →
      obj.fmtetc[idx]? = some entry →
      entry.tymed = TYMED_HGLOBAL →
      obj.stgmeds[idx]? = some sm →
      sm.hGlobal = i + 1 →
      st.blocks[i]? = some (some b) →
      b.lockOk = true →
      st.allocOk = true →
      (GetData st obj d).2 =
          Except.ok ⟨entry.tymed, st.blocks.length + 1, none⟩ ∧
        st.blocks.length + 1 ≠ sm.hGlobal ∧
        blockData (GetData st obj d).1 (st.blocks.length + 1) = some b.data ∧
        blockData (GetData st obj d).1 sm.hGlobal = some b.data ∧
        blockData st sm.hGlobal = some b.data) ∧
    (lookup_format obj d = none →
      GetData st obj d = (st, Except.error DV_E_FORMATETC)) := by
  constructor
  · intro idx entry sm i b hlook hentry htymed hsm hsmh hb hl ha
    have hi : i < st.blocks.length := (List.getElem?_eq_some_iff.mp hb).1
    have hdup := duplicate_ok_spec st i b hb hl ha
    have hget : GetData st obj d =
        ({ st with blocks := st.blocks ++ [some ⟨b.data, st.newLockOk⟩] },
         Except.ok ⟨entry.tymed, st.blocks.length + 1, none⟩) := by
      simp only [GetData, hlook, hentry, Option.getD_some, hsm]
      rw [if_pos htymed, hsmh, hdup]
    refine ⟨by rw [hget], ?_, ?_, ?_, ?_⟩
    · rw [hsmh]
      omega
    · rw [hget]
      simp [blockData, List.getElem?_concat_length]
    · rw [hget, hsmh]
      simp [blockData, List.getElem?_append_left hi, hb]
    · simp [blockData, hsmh, hb]
  · intro h
    simp [GetData, h]

/-- C2 witness: on the concrete one-block heap, the duplicate lands in
handle 2 with the stored bytes `[72, 0]`, handle 1 keeps its content, and
the non-matching descriptor is refused. -/
theorem C2_get_duplicates_witness :
    (GetData c2heap c2obj c2desc).2 = Except.ok ⟨1, 2, none⟩ ∧
    blockData (GetData c2heap c2obj c2desc).1 2 = some [72, 0] ∧
    blockData (GetData c2heap c2obj c2desc).1 1 = some [72, 0] ∧
    GetData c2heap c2obj c2missDesc = (c2heap, Except.error DV_E_FORMATETC) := by
  have h := (C2_get_duplicates c2heap c2obj c2desc).1 0 c2entry c2medium 0
    c2block (by decide) (by decide) (by decide) (by decide) (by decide)
    (by decide) (by decide) (by decide)
  exact ⟨h.1, h.2.2.1, h.2.2.2.1, (C2_get_duplicates c2heap c2obj c2missDesc).2
    (by decide)⟩

/-- C3 counterexample: on a heap whose single 1-byte block reports size 1
but locks to a null pointer, `duplicate_global_data` performs the copy
through the null source pointer (the invalid-access observation is `true`)
— there is no defensive null check before the copy. -/
theorem C3_no_null_check_counterexample :
    (duplicate_global_data c3heap 1).2.2 = true ∧
    globalSize c3heap 1 = 1 ∧ globalLock c3heap 1 = none := by
  refine ⟨rfl, rfl, rfl⟩

/-- C3 amended: allocation failure does surface as `E_OUTOFMEMORY` with no
copy performed; and whenever the locked source pointer is non-null (or the
reported size is zero) no invalid access happens; but a null locked pointer
with nonzero size is dereferenced — the code has no defensive check. -/
theorem C3_amended_oom_and_nonnull (st : GHeap) (h : Nat) :
    (st.allocOk = false →
      duplicate_global_data st h = (st, Except.error E_OUTOFMEMORY, false)) ∧
    (∀ p, globalLock st h = some p →
      (duplicate_global_data st h).2.2 = false) ∧
    (globalSize st h = 0 → (duplicate_global_data st h).2.2 = false) := by
  refine ⟨?_, ?_, ?_⟩
  · intro ha
    simp [duplicate_global_data, globalAlloc, ha]
  · intro p hp
    match h with
    | 0 => simp [globalLock] at hp
    | Nat.succ i =>
      rcases hb : st.blocks[i]? with _ | ob
      · simp [globalLock, hb] at hp
      · rcases ob with _ | b
        · simp [globalLock, hb] at hp
        · by_cases hl : b.lockOk = true
          · by_cases ha : st.allocOk = true
            · rw [duplicate_ok_spec st i b hb hl ha]
            · simp only [Bool.not_eq_true] at ha
              simp [duplicate_global_data, globalAlloc, ha]
          · simp [globalLock, hb, hl] at hp
  · intro hz
    by_cases ha : st.allocOk = true
    · simp only [duplicate_global_data, hz, globalAlloc, ha, if_true]
      exact readBytes_zero_flag _ _
    · simp only [Bool.not_eq_true] at ha
      simp [duplicate_global_data, globalAlloc, ha]

/-- C3 amended witness: the out-of-memory branch at a concrete heap, and
the no-invalid-access conclusion at a concrete lockable block. -/
theorem C3_amended_witness :
    GHeap.allocOk c3failHeap = false ∧
    duplicate_global_data c3failHeap 0 =
      (c3failHeap, Except.error E_OUTOFMEMORY, false) ∧
    globalLock c3lockHeap 1 = some 1 ∧
    (duplicate_global_data c3lockHeap 1).2.2 = false :=
  ⟨rfl, (C3_amended_oom_and_nonnull c3failHeap 0).1 rfl, rfl,
   (C3_amended_oom_and_nonnull c3lockHeap 1).2.1 1 rfl⟩

/-- C4: evaluation at the failing input `[72]` (one u16).  The source
allocates `data.len()` = 1 byte but copies `data.len()` u16 values = 2
bytes, so the write runs past the allocated block (observation `true`) and
the block retains only the first byte of the encoding; the
free-before-error path on lock failure, by contrast, behaves as claimed. -/
theorem C4_size_in_elements_not_bytes :
    (encodeU16LE [72]).length = 2 ∧
    (global_from_data c4heap [72]).2.1 = Except.ok 1 ∧
    globalSize (global_from_data c4heap [72]).1 1 = 1 ∧
    (global_from_data c4heap [72]).2.2 = true ∧
    blockData (global_from_data c4heap [72]).1 1 = some [72] ∧
    (global_from_data c4lockFailHeap [72]).2.1 = Except.error E_OUTOFMEMORY ∧
    blockData (global_from_data c4lockFailHeap [72]).1 1 = none := by
  refine ⟨rfl, rfl, rfl, rfl, rfl, rfl, rfl⟩

/-- C5: evaluation of the descriptor `main` builds on the mouse-press
event.  Format id, index, medium kind, table length and allowed effects are
as claimed, but the aspect field is `0`, not the content aspect
(`DVASPECT_CONTENT = 1`): the source transposes the values, storing a
pointer to `DVASPECT_CONTENT` in the target-device field `ptd` instead. -/
theorem C5_aspect_field_transposed :
    mainFormatTable = [mainFormatEtc] ∧
    mainFormatEtc.cfFormat = CF_TEXT ∧
    mainFormatEtc.lindex = -1 ∧
    mainFormatEtc.tymed = TYMED_HGLOBAL ∧
    mainAllowedEffects = DROPEFFECT_COPY ||| DROPEFFECT_LINK ∧
    mainFormatEtc.dwAspect = 0 ∧
    DVASPECT_CONTENT = 1 ∧
    mainFormatEtc.dwAspect ≠ DVASPECT_CONTENT ∧
    mainFormatEtc.ptd = ADDR_DVASPECT_CONTENT ∧
    mainFormatEtc.ptd ≠ 0 := by
  refine ⟨rfl, rfl, rfl, rfl, rfl, rfl, rfl, by decide, rfl, by decide⟩

/-- C6: `GetDataHere` fails for every descriptor and destination, with the
repository's `DATA_E_FORMATETC` failure code (a negative HRESULT). -/
theorem C6_get_into_always_fails (d : FORMATETC) (m : STGMEDIUM) :
    GetDataHere d m = Except.error DATA_E_FORMATETC ∧ DATA_E_FORMATETC < 0 :=
  ⟨rfl, by decide⟩

/-- C7: `QueryContinueDrag` cancels on escape (whatever the key state),
drops when neither mouse-button bit is set, continues otherwise; and
`GiveFeedback` always requests default cursors. -/
theorem C7_feedback_controller (esc : Bool) (keys eff : Nat) :
    (esc = true → QueryContinueDrag esc keys = DRAGDROP_S_CANCEL) ∧
    (esc = false → keys &&& (MK_LBUTTON ||| MK_RBUTTON) = 0 →
      QueryContinueDrag esc keys = DRAGDROP_S_DROP) ∧
    (esc = false → keys &&& (MK_LBUTTON ||| MK_RBUTTON) ≠ 0 →
      QueryContinueDrag esc keys = S_OK) ∧
    GiveFeedback eff = DRAGDROP_S_USEDEFAULTCURSORS := by
  refine ⟨?_, ?_, ?_, rfl⟩
  · intro h
    simp [QueryContinueDrag, h]
  · intro h hk
    simp [QueryContinueDrag, h, hk]
  · intro h hk
    simp [QueryContinueDrag, h, hk]

/-- C7 witness: escape with both buttons held cancels; no buttons drops;
the primary button continues; feedback is default cursors. -/
theorem C7_feedback_controller_witness :
    QueryContinueDrag true 3 = DRAGDROP_S_CANCEL ∧
    QueryContinueDrag false 0 = DRAGDROP_S_DROP ∧
    QueryContinueDrag false 1 = S_OK ∧
    GiveFeedback 2 = DRAGDROP_S_USEDEFAULTCURSORS :=
  ⟨(C7_feedback_controller true 3 2).1 rfl,
   (C7_feedback_controller false 0 2).2.1 rfl (by decide),
   (C7_feedback_controller false 1 2).2.2.1 rfl (by decide),
   (C7_feedback_controller false 1 2).2.2.2⟩

/-- C8: a fresh data object reports async-mode false and in-operation
false; `StartOperation` makes in-operation true, `EndOperation` makes it
false, ending while idle is a no-op leaving the object unchanged, ending
twice is the same as ending once, and the only other mutator
(`SetAsyncMode`) never changes the in-operation flag. -/
theorem C8_async_state_machine (f : List FORMATETC) (s : List STGMEDIUM)
    (obj : DragDropObject) (b : Bool) (h h2 : Int) (e e2 : Nat) :
    GetAsyncMode (create_data_object f s) = false ∧
    InOperation (create_data_object f s) = false ∧
    InOperation (StartOperation obj) = true ∧
    InOperation (EndOperation h e obj) = false ∧
    EndOperation h2 e2 (EndOperation h e obj) = EndOperation h e obj ∧
    (InOperation obj = false → EndOperation h e obj = obj) ∧
    InOperation (SetAsyncMode b obj) = InOperation obj := by
  refine ⟨rfl, rfl, rfl, rfl, rfl, ?_, rfl⟩
  intro hidle
  cases obj
  simp only [InOperation] at hidle
  simp [EndOperation, hidle]

/-- C8 witness: a fresh object is idle, and ending an operation on it
leaves it unchanged. -/
theorem C8_async_state_machine_witness :
    InOperation (create_data_object [] []) = false ∧
    EndOperation 0 0 (create_data_object [] []) = create_data_object [] [] := by
  have h := C8_async_state_machine [] [] (create_data_object [] []) false 0 0 0 0
  exact ⟨h.2.1, h.2.2.2.2.2.1 rfl⟩

/-- C9: `GetCanonicalFormatEtc` always reports `E_NOTIMPL` (a failure
code), after nulling the output descriptor's target-device field `ptd` and
leaving its other fields untouched. -/
theorem C9_canonicalize_declined (din dout : FORMATETC) :
    (GetCanonicalFormatEtc din dout).2 = E_NOTIMPL ∧
    E_NOTIMPL < 0 ∧
    (GetCanonicalFormatEtc din dout).1.ptd = 0 ∧
    (GetCanonicalFormatEtc din dout).1.cfFormat = dout.cfFormat ∧
    (GetCanonicalFormatEtc din dout).1.dwAspect = dout.dwAspect ∧
    (GetCanonicalFormatEtc din dout).1.lindex = dout.lindex ∧
    (GetCanonicalFormatEtc din dout).1.tymed = dout.tymed :=
  ⟨rfl, by decide, rfl, rfl, rfl, rfl, rfl⟩

/-- C10: for a descriptor matching a table entry whose medium kind is not
`TYMED_HGLOBAL`, `GetData` succeeds, leaves the heap untouched, and returns
a medium tagged with the entry's kind, a default (null) payload handle, and
no release-on-behalf object. -/
theorem C10_non_global_medium (st : GHeap) (obj : DragDropObject)
    (d : FORMATETC) (idx : Nat) (entry : FORMATETC)
    (hlook : lookup_format obj d = some idx)
    (hentry : obj.fmtetc[idx]? = some entry)
    (ht : entry.tymed ≠ TYMED_HGLOBAL) :
    GetData st obj d = (st, Except.ok ⟨entry.tymed, 0, none⟩) := by
  simp only [GetData, hlook, hentry, Option.getD_some]
  rw [if_neg ht]
  simp [STGMEDIUM.default]

/-- C10 witness: the tymed-2 entry is retrieved as an empty-payload medium
tagged 2, with the heap unchanged. -/
theorem C10_non_global_medium_witness :
    GetData c10heap c10obj c10desc = (c10heap, Except.ok ⟨2, 0, none⟩) :=
  C10_non_global_medium c10heap c10obj c10desc 0 c10entry (by decide)
    (by decide) (by decide)
